import Mathlib

/-!
Verification of the FanFusion/ai-tutor core services against their
natural-language specification.

The development shallowly embeds the Python services:

* `src/app/services/tutor_bot_service.py`  (`TutorBotService`)
* `src/app/services/gemini_service.py`     (`GeminiService`)
* `src/app/services/syllabus_generator.py` (`SyllabusGenerator`)

JSON documents are modelled by the inductive `JValue`; the Python `json.loads`
is an external library and is therefore modelled as an explicit parse
parameter (`String → Option JValue`, or `String → Option Turn` for the
four-field turn responses, where the field reads with `.get` defaults are
kept in the embedding).  The generative model is an external collaborator;
it is modelled as an oracle: a list of pending call outcomes, consumed one
per call, where `none` stands for a raised transient error (an exhausted
oracle is likewise treated as a transient error).  Chat histories are lists
of `(user_text, displayed_text)` pairs exactly as in the Gradio UI.
-/

namespace AiTutor

/-- JSON values, the shape of everything `json.loads` can return that the
services inspect.  Numbers are modelled as integers (no claim involves
fractional numbers). -/
inductive JValue where
  | null : JValue
  | bool (b : Bool) : JValue
  | num (n : Int) : JValue
  | str (s : String) : JValue
  | arr (elems : List JValue) : JValue
  | obj (fields : List (String × JValue)) : JValue

mutual

/-- Boolean equality on JSON values. -/
def JValue.beq : JValue → JValue → Bool
  | .null, .null => true
  | .bool a, .bool b => a == b
  | .num a, .num b => a == b
  | .str a, .str b => a == b
  | .arr a, .arr b => beqElems a b
  | .obj a, .obj b => beqFields a b
  | _, _ => false

/-- Boolean equality on lists of JSON values. -/
def beqElems : List JValue → List JValue → Bool
  | [], [] => true
  | a :: as, b :: bs => a.beq b && beqElems as bs
  | _, _ => false

/-- Boolean equality on lists of JSON object fields. -/
def beqFields : List (String × JValue) → List (String × JValue) → Bool
  | [], [] => true
  | (k, a) :: as, (l, b) :: bs => k == l && a.beq b && beqFields as bs
  | _, _ => false

end

instance : BEq JValue := ⟨JValue.beq⟩

/-- Python truthiness of a JSON value (`if not x`): `None`, `False`, `0`,
`""`, empty lists and empty dicts are falsy. -/
def JValue.truthy : JValue → Bool
  | .null => false
  | .bool b => b
  | .num n => n != 0
  | .str s => s != ""
  | .arr l => !l.isEmpty
  | .obj l => !l.isEmpty

/-- Python truthiness of an optional JSON value (`None` is falsy). -/
def truthyOpt : Option JValue → Bool
  | none => false
  | some v => v.truthy

/-- Python `d[k]` / `d.get(k)` on a dict; `none` on a non-dict or a missing
key. -/
def JValue.lookup : JValue → String → Option JValue
  | .obj fields, k => List.lookup k fields
  | _, _ => none

/-- Whether `pat` occurs as a contiguous substring of `l`
(Python `pat in text` on strings). -/
def isSubstr (pat : List Char) : List Char → Bool
  | [] => pat.isEmpty
  | c :: t => pat.isPrefixOf (c :: t) || isSubstr pat t

/-- The Python `k in v` membership test: key membership on a dict, element
membership on a list, substring on a string.  (On numbers, booleans and
`None`, Python raises `TypeError`; every such site in the sources sits in a
`try/except` whose handler returns the same outcome the claims exercise, and
the test is modelled as `false`.) -/
def pyIn (k : String) : JValue → Bool
  | .obj fields => fields.any (fun p => p.1 == k)
  | .arr l => l.any (fun v => v == JValue.str k)
  | .str s => isSubstr k.data s.data
  | _ => false

/-- Python `str.lower()` (ASCII, the only characters the reserved commands
use). -/
def pyLower (s : String) : String := String.mk (s.data.map Char.toLower)

/-- Index of the first occurrence of `c` in `l`
(Python `text.find(c)`, with `none` for `-1`). -/
def findChar (c : Char) : List Char → Option Nat
  | [] => none
  | a :: t => if a = c then some 0 else (findChar c t).map (· + 1)

/-- Index of the last occurrence of `c` in `l`
(Python `text.rfind(c)`, with `none` for `-1`). -/
def rfindChar (c : Char) (l : List Char) : Option Nat :=
  (findChar c l.reverse).map (fun i => l.length - 1 - i)

/-- Escape a character for a JSON string literal (the cases `json.dumps`
produces for the data in this development). -/
def escChar (c : Char) : String :=
  if c = '\\' then "\\\\"
  else if c = '\"' then "\\\""
  else if c = '\n' then "\\n"
  else String.mk [c]

/-- A JSON string literal, double-quoted and escaped (models `json.dumps`
on a string). -/
def jdumpStr (s : String) : String :=
  "\"" ++ String.join (s.data.map escChar) ++ "\""

mutual

/-- Serialization of a JSON value with the default `json.dumps` separators
(`", "` and `": "`); used only to build prompt text, which the model oracle
ignores.  The `indent=2` pretty-printing used for display strings is
modelled without the extra whitespace. -/
def JValue.jdump : JValue → String
  | .null => "null"
  | .bool b => if b then "true" else "false"
  | .num n => toString n
  | .str s => jdumpStr s
  | .arr l => "[" ++ jdumpElems l ++ "]"
  | .obj l => "\x7b" ++ jdumpFields l ++ "\x7d"

/-- Comma-separated serialization of array elements. -/
def jdumpElems : List JValue → String
  | [] => ""
  | [v] => v.jdump
  | v :: rest => v.jdump ++ ", " ++ jdumpElems rest

/-- Comma-separated serialization of object fields. -/
def jdumpFields : List (String × JValue) → String
  | [] => ""
  | [(k, v)] => jdumpStr k ++ ": " ++ v.jdump
  | (k, v) :: rest => jdumpStr k ++ ": " ++ v.jdump ++ ", " ++ jdumpFields rest

end

/-- The four fields of a model turn response that `TutorBotService` ever
reads out of the decoded JSON (`stage_id`, `response_type`, `is_pass`,
`response_content`); a missing field is `none`, and the `.get` defaults of
the source are applied at the use sites. -/
structure Turn where
  stage_id : Option String := none
  response_type : Option String := none
  is_pass : Option Bool := none
  response_content : Option String := none
deriving DecidableEq

/-- Pending outcomes of calls to the generative model, consumed one per
call; `none` models a transient exception raised by the call (an exhausted
oracle is treated the same way). -/
abbrev ModelOracle := List (Option String)

/-- The literal JSON fallback string returned by
`TutorBotService._send_message_to_model` when the model call raises
(tutor_bot_service.py line 403). -/
def errorResponseText : String :=
  "\x7b\"stage_id\": \"\", \"response_type\": \"explain\", \"is_pass\": false, \"response_content\": \"I encountered an error processing your request. Please try again.\"\x7d"

/-- Serialization of a four-field turn response in the exact layout of the
fallback literal above. -/
def turnJson (sid rty : String) (ipass : Bool) (rc : String) : String :=
  "\x7b\"stage_id\": \"" ++ sid ++ "\", \"response_type\": \"" ++ rty ++
    "\", \"is_pass\": " ++ (if ipass then "true" else "false") ++
    ", \"response_content\": \"" ++ rc ++ "\"\x7d"

/-- The synthetic turn the fallback string denotes. -/
def errorTurn : Turn :=
  { stage_id := some ""
    response_type := some "explain"
    is_pass := some false
    response_content := some "I encountered an error processing your request. Please try again." }

/-- `TutorBotService._send_message_to_model` (tutor_bot_service.py
lines 366-403): ensure a chat session exists, send the message, and on any
exception return the literal apology JSON string instead of raising.  The
chat session is an opaque handle, modelled as `Option Unit`. -/
def sendMessageToModel (_chat_session : Option Unit) (oracle : ModelOracle)
    (_message : String) : String × Option Unit × ModelOracle :=
  match oracle with
  | some t :: rest => (t, some (), rest)
  | none :: rest => (errorResponseText, some (), rest)
  | [] => (errorResponseText, some (), [])

/-- The mutable state of a `TutorBotService` instance: chat session handle,
loaded syllabus (a JSON value, `none` for Python `None`), current stage
index and the teaching-started flag. -/
structure TutorState where
  chat_session : Option Unit
  syllabus_info : Option JValue
  current_stage_index : Nat
  is_teaching_started : Bool

/-- `TutorBotService.set_syllabus` (tutor_bot_service.py lines 42-54):
store the syllabus, reset the stage index to 0 and the started flag to
false.  The chat session field is not touched (the source comment reads
"No longer initializing chat session or sending system prompt here"). -/
def set_syllabus (st : TutorState) (syllabus_info : JValue) : TutorState :=
  { st with
    syllabus_info := some syllabus_info
    current_stage_index := 0
    is_teaching_started := false }

/-- `TutorBotService._get_current_stage_info` (tutor_bot_service.py
lines 234-261): return the stages list and the current stage, or `none`
when the syllabus is missing, lacks a `"syllabus"` list, or the list is
empty; clamp an out-of-bounds index to the last stage (the clamp mutates
`current_stage_index`, so the possibly-updated index is returned
alongside). -/
def getCurrentStageInfo (st : TutorState) :
    Option (List JValue × JValue) × Nat :=
  match st.syllabus_info with
  | none => (none, st.current_stage_index)
  | some info =>
    if !info.truthy then (none, st.current_stage_index)
    else if !(pyIn "syllabus" info) then (none, st.current_stage_index)
    else
      match info.lookup "syllabus" with
      | some (.arr stages) =>
        if stages.isEmpty then (none, st.current_stage_index)
        else
          let idx :=
            if stages.length ≤ st.current_stage_index then stages.length - 1
            else st.current_stage_index
          (some (stages, stages.getD idx .null), idx)
      | _ => (none, st.current_stage_index)

/-- `TutorBotService._create_prompt` (tutor_bot_service.py lines 329-364):
the per-turn prompt template with the input and the serialized current
stage interpolated. -/
def createPrompt (input_type input_content : String)
    (current_stage_info : Option JValue) : String :=
  let stage_info_str :=
    match current_stage_info with
    | some v => v.jdump
    | none => "null"
  "\n        Input_type: " ++ input_type ++
  "\n        Input: " ++ input_content ++
  "\n        Current_stage_info: " ++ stage_info_str ++
  "\n        \n        Remember to respond with a properly formatted JSON object as required:\n        \x7b\x7b\n            \"stage_id\": \"current stage id\",\n            \"response_type\": \"teach/explain/judge/greet\",  \n            \"is_pass\": true/false,\n            \"response_content\": \"Your actual response content here\"\n        \x7d\x7d\n        \n        When generating the response, make sure:\n        1. stage_id matches the current stage you\x27re teaching\n        2. response_type is appropriate for the interaction (teach, explain, judge, greet)\n        3. is_pass is only true when the user answer meets the judge_rule criteria\n        4. response_content contains rich educational content with multimedia tags where appropriate\n        "

/-- The fixed guidance message appended when no syllabus is loaded
(tutor_bot_service.py line 72). -/
def noSyllabusMsg : String :=
  "Please set a syllabus before starting the teaching session. Go back to the \x27Generate Syllabus\x27 tab and generate one first."

/-- The fixed error message appended when the current stage cannot be
resolved (tutor_bot_service.py line 80). -/
def stageErrorMsg : String :=
  "There was an error retrieving the current stage information. Please try again or generate a new syllabus."

/-- A chat history entry: `(learner_text_or_empty, displayed_text)`. -/
abbrev ChatHistory := List (String × String)

/-- `TutorBotService.process_message` (tutor_bot_service.py lines 56-144).

The result is `Except`: the source parses the primary model response with a
bare `json.loads(response_text)` (line 90), so an unparseable response
raises `json.JSONDecodeError` out of `process_message`; that uncaught
exception is the `.error` case.  A normal return carries the updated chat
history, the `stage_updated` value (`none` for the early `None` returns),
the updated state and the remaining oracle. -/
def processMessage (parse : String → Option Turn)
    (input_type input_content : String) (chat_history : ChatHistory)
    (oracle : ModelOracle) (st : TutorState) :
    Except String (ChatHistory × Option Bool × TutorState × ModelOracle) :=
  if !truthyOpt st.syllabus_info then
    .ok (chat_history ++
          [(if input_type == "user" then input_content else "", noSyllabusMsg)],
         none, st, oracle)
  else
    match getCurrentStageInfo st with
    | (stageInfo, idx₁) =>
      let st₁ := { st with current_stage_index := idx₁ }
      match stageInfo with
      | none =>
        .ok (chat_history ++
              [(if input_type == "user" then input_content else "", stageErrorMsg)],
             none, st₁, oracle)
      | some (stages, stage) =>
        if !stage.truthy then
          .ok (chat_history ++
                [(if input_type == "user" then input_content else "", stageErrorMsg)],
               none, st₁, oracle)
        else
          let prompt := createPrompt input_type input_content (some stage)
          match sendMessageToModel st₁.chat_session oracle prompt with
          | (response_text, cs₁, o₁) =>
            match parse response_text with
            | none => .error ("JSONDecodeError: " ++ response_text)
            | some j =>
              let response_content := j.response_content.getD ""
              let response_type := j.response_type.getD ""
              let is_pass := j.is_pass.getD false
              let hist₁ :=
                if input_type == "user" then
                  chat_history ++ [(input_content, response_content)]
                else if input_type == "admin" &&
                    !(pyLower input_content == "start teaching" ||
                      pyLower input_content == "end teaching") then
                  chat_history
                else
                  chat_history ++ [("", response_content)]
              if (input_type == "admin" &&
                    isSubstr "next stage".data (pyLower input_content).data) ||
                  (response_type == "judge" && is_pass &&
                    decide (idx₁ < stages.length - 1)) then
                let st₂ := { st₁ with
                              current_stage_index := idx₁ + 1
                              chat_session := cs₁ }
                if idx₁ + 1 < stages.length then
                  match getCurrentStageInfo st₂ with
                  | (stageInfo₂, idx₃) =>
                    let teach_prompt :=
                      createPrompt "admin" "start stage" (stageInfo₂.map Prod.snd)
                    match sendMessageToModel cs₁ o₁ teach_prompt with
                    | (t₂, cs₂, o₂) =>
                      let st₃ := { st₂ with
                                    current_stage_index := idx₃
                                    chat_session := cs₂ }
                      match parse t₂ with
                      | some tj =>
                        .ok (hist₁ ++ [("", tj.response_content.getD "")],
                             some true, st₃, o₂)
                      | none => .ok (hist₁, some true, st₃, o₂)
                else
                  .ok (hist₁, some true, st₂, o₁)
              else if input_type == "admin" &&
                  isSubstr "previous stage".data (pyLower input_content).data &&
                  decide (0 < idx₁) then
                let st₂ := { st₁ with
                              current_stage_index := idx₁ - 1
                              chat_session := cs₁ }
                match getCurrentStageInfo st₂ with
                | (stageInfo₂, idx₃) =>
                  let teach_prompt :=
                    createPrompt "admin" "start stage" (stageInfo₂.map Prod.snd)
                  match sendMessageToModel cs₁ o₁ teach_prompt with
                  | (t₂, cs₂, o₂) =>
                    let st₃ := { st₂ with
                                  current_stage_index := idx₃
                                  chat_session := cs₂ }
                    match parse t₂ with
                    | some tj =>
                      .ok (hist₁ ++ [("", tj.response_content.getD "")],
                           some true, st₃, o₂)
                    | none => .ok (hist₁, some true, st₃, o₂)
              else
                .ok (hist₁, some false, { st₁ with chat_session := cs₁ }, o₁)

/-- `TutorBotService.end_teaching` (tutor_bot_service.py lines 202-232):
no-op when teaching was never started; otherwise send an ending prompt,
append the parsed content (or the fixed thank-you fallback) and clear the
started flag. -/
def endTeaching (parse : String → Option Turn) (chat_history : ChatHistory)
    (oracle : ModelOracle) (st : TutorState) :
    ChatHistory × TutorState × ModelOracle :=
  if !st.is_teaching_started then (chat_history, st, oracle)
  else
    let prompt := createPrompt "admin" "end teaching" none
    match sendMessageToModel st.chat_session oracle prompt with
    | (t, cs₁, o₁) =>
      let hist₁ :=
        match parse t with
        | some j => chat_history ++ [("", j.response_content.getD "")]
        | none =>
          chat_history ++
            [("", "Thank you for completing the teaching session! I hope you learned a lot.")]
      (hist₁, { st with is_teaching_started := false, chat_session := cs₁ }, o₁)

/-- The layered extraction of a structured object from raw model text
(gemini_service.py lines 142-164, the shared fallback of
`generate_syllabus_from_document` and `update_syllabus`): (1) parse the
whole text directly; (2) otherwise take the substring from the first
opening brace (`text.find`) to the last closing brace (`text.rfind` plus
one) and parse that; (3) otherwise return the error value.  When `rfind`
misses, the source computes `json_end = -1 + 1 = 0`, so its
`json_end != -1` guard is always true; the slice is then empty and parsing
it fails, which the embedding reproduces. -/
def extractJson (parse : String → Option JValue) (text : String) :
    Except String JValue :=
  match parse text with
  | some v => .ok v
  | none =>
    match findChar '\x7b' text.data with
    | none => .error "Could not find JSON content in response"
    | some json_start =>
      let json_end := ((rfindChar '\x7d' text.data).map (· + 1)).getD 0
      let json_content :=
        String.mk ((text.data.drop json_start).take (json_end - json_start))
      match parse json_content with
      | some v => .ok v
      | none => .error "Could not parse extracted content as JSON"

/-- The fallback branch of the `GeminiService` pipelines (gemini_service.py
lines 129-167 and 229-267): a second model call without schema whose text
goes through `extractJson`; a failure of the fallback call itself yields
the outer `{"error": ...}` dict, whose message starts with the given prefix
(the interpolated `str(e)` of the source is opaque and modelled by a fixed
tail). -/
def geminiFallbackCall (parse : String → Option JValue) (errHead : String)
    (oracle : ModelOracle) : JValue × ModelOracle :=
  match oracle with
  | some t :: rest =>
    match extractJson parse t with
    | .ok v => (v, rest)
    | .error msg => (.obj [("error", .str msg)], rest)
  | none :: rest =>
    (.obj [("error", .str (errHead ++ "model call failed"))], rest)
  | [] => (.obj [("error", .str (errHead ++ "model call failed"))], [])

/-- The common model-call pipeline of `GeminiService` (gemini_service.py
lines 109-167 and 209-267): try the schema-constrained call and parse its
text; on any exception (failed call or unparseable text) fall back to
`geminiFallbackCall`. -/
def geminiPipeline (parse : String → Option JValue) (errHead : String)
    (oracle : ModelOracle) : JValue × ModelOracle :=
  match oracle with
  | some t :: rest =>
    match parse t with
    | some v => (v, rest)
    | none => geminiFallbackCall parse errHead rest
  | none :: rest => geminiFallbackCall parse errHead rest
  | [] => geminiFallbackCall parse errHead []

/-- `GeminiService.generate_syllabus_from_document` (gemini_service.py
lines 59-167).  The document URL only shapes the prompt parts handed to the
model oracle. -/
def generate_syllabus_from_document (parse : String → Option JValue)
    (_document_url : String) (oracle : ModelOracle) : JValue × ModelOracle :=
  geminiPipeline parse "Failed to generate syllabus: " oracle

/-- `GeminiService.update_syllabus` (gemini_service.py lines 169-267).  The
current syllabus and the user message only shape the prompt handed to the
model oracle. -/
def update_syllabus (parse : String → Option JValue)
    (_current_syllabus : JValue) (_user_message : String)
    (oracle : ModelOracle) : JValue × ModelOracle :=
  geminiPipeline parse "Failed to update syllabus: " oracle

/-- The seven required stage fields of `SyllabusGenerator._validate_syllabus`
(syllabus_generator.py lines 169-172). -/
def stageFields : List String :=
  ["stage_id", "stage_description", "judge_media_allowed",
   "target", "teaching_knowledge", "judge_question", "judge_answer"]

/-- The per-stage loop of `SyllabusGenerator._validate_syllabus`
(syllabus_generator.py lines 167-187), with 1-based stage numbers in the
messages and early return on the first failure. -/
def validateStages : Nat → List JValue → Option String
  | _, [] => none
  | i, stage :: rest =>
    match stageFields.find? (fun f => !(pyIn f stage)) with
    | some f =>
      some ("Stage " ++ toString (i + 1) ++ " is missing required field: " ++ f)
    | none =>
      match stage.lookup "judge_media_allowed" with
      | some (.arr _) =>
        match stage.lookup "teaching_knowledge" with
        | some (.arr _) => validateStages (i + 1) rest
        | _ =>
          some ("Stage " ++ toString (i + 1) ++
            ": \x27teaching_knowledge\x27 must be a list")
      | _ =>
        some ("Stage " ++ toString (i + 1) ++
          ": \x27judge_media_allowed\x27 must be a list")

/-- `SyllabusGenerator._validate_syllabus` (syllabus_generator.py
lines 143-194): `none` when the syllabus is well-shaped, otherwise the
first error message. -/
def validate_syllabus (syllabus : JValue) : Option String :=
  match ["syllabus_name", "target_audience", "syllabus"].find?
      (fun f => !(pyIn f syllabus)) with
  | some f => some ("Missing required field: " ++ f)
  | none =>
    match syllabus.lookup "syllabus" with
    | some (.arr stages) => validateStages 0 stages
    | _ => some "The \x27syllabus\x27 field must be a list of stages"

/-- The mutable state of a `SyllabusGenerator` instance. -/
structure GenState where
  document_uploaded : Bool
  document_url : Option String
  current_syllabus : Option JValue

/-- Matching of `pat` at the start of `l` followed by `.*` and then `sfx`,
where `.` does not cross a newline (Python `re` default). -/
def dotStarThen (sfx : List Char) : List Char → Bool
  | [] => sfx.isEmpty
  | c :: t => sfx.isPrefixOf (c :: t) || (c != '\n' && dotStarThen sfx t)

/-- `re.search` of `pat.*sfx` anywhere in `l`. -/
def searchPair (pat sfx : List Char) : List Char → Bool
  | [] => pat.isEmpty && sfx.isEmpty
  | c :: t =>
    (pat.isPrefixOf (c :: t) && dotStarThen sfx (List.drop pat.length (c :: t)))
      || searchPair pat sfx t

/-- The request classifier of `SyllabusGenerator.process_message`
(syllabus_generator.py line 87):
`re.search` of the pattern `generate.*syllabus|create.*syllabus` over the
lowercased message. -/
def matchesGenerateRegex (message : String) : Bool :=
  searchPair "generate".data "syllabus".data (pyLower message).data ||
    searchPair "create".data "syllabus".data (pyLower message).data

/-- The `error` field of an error dict, as interpolated into the
`Error: ...` reply strings of the source. -/
def errText (v : JValue) : String :=
  match v.lookup "error" with
  | some (.str s) => s
  | _ => ""

/-- The success message of the generation branch
(syllabus_generator.py line 106). -/
def generatedMsg (formatted : String) : String :=
  "Generated teaching syllabus:\n```json\n" ++ formatted ++
    "\n```\n\nYou can now modify this syllabus by giving specific instructions."

/-- `SyllabusGenerator.process_message` (syllabus_generator.py
lines 70-141): returns the reply text, the updated generator state and the
remaining model oracle.  In the generation branch the result of
`generate_syllabus_from_document` is assigned to `current_syllabus` before
the `"error" in ...` check (line 90), and the schema-validation call of
that branch is commented out in the source (lines 101-104); in the update
branch the result of `update_syllabus` is assigned to `current_syllabus`
(line 122) before `_validate_syllabus` runs (line 129). -/
def genProcessMessage (parse : String → Option JValue) (message : String)
    (oracle : ModelOracle) (st : GenState) :
    String × GenState × ModelOracle :=
  if !st.document_uploaded then
    ("Please upload a document first to generate a syllabus.", st, oracle)
  else if matchesGenerateRegex message then
    match generate_syllabus_from_document parse (st.document_url.getD "") oracle with
    | (result, o₁) =>
      let st₁ := { st with current_syllabus := some result }
      if pyIn "error" result then
        ("Error: " ++ errText result, st₁, o₁)
      else
        (generatedMsg result.jdump, st₁, o₁)
  else if truthyOpt st.current_syllabus then
    match update_syllabus parse (st.current_syllabus.getD .null) message oracle with
    | (updated, o₁) =>
      if pyIn "error" updated then
        ("Error: " ++ errText updated, st, o₁)
      else
        let st₁ := { st with current_syllabus := some updated }
        match validate_syllabus updated with
        | some verr =>
          ("Error validating updated syllabus: " ++ verr ++
             "\n\nReceived syllabus:\n```json\n" ++ updated.jdump ++ "\n```",
           st₁, o₁)
        | none =>
          ("Updated teaching syllabus:\n```json\n" ++ updated.jdump ++ "\n```",
           st₁, o₁)
  else
    ("Please generate a syllabus first by typing \x27Generate a syllabus from this document\x27.",
     st, oracle)

/-! ### Concrete fixtures used by counterexamples and witnesses -/

/-- A well-formed first stage. -/
def stageA : JValue :=
  .obj [("stage_id", .str "stage_1"), ("stage_description", .str "Intro"),
        ("judge_media_allowed", .arr [.str "text"]), ("target", .str "Basics"),
        ("teaching_knowledge", .arr [.str "Point 1"]),
        ("judge_question", .str "What is X?"), ("judge_answer", .str "X is Y")]

/-- A well-formed second stage. -/
def stageB : JValue :=
  .obj [("stage_id", .str "stage_2"), ("stage_description", .str "Depth"),
        ("judge_media_allowed", .arr [.str "text"]), ("target", .str "More"),
        ("teaching_knowledge", .arr [.str "Point 2"]),
        ("judge_question", .str "Why X?"), ("judge_answer", .str "Because Y")]

/-- A schema-valid two-stage syllabus. -/
def validSyl : JValue :=
  .obj [("syllabus_name", .str "Demo"), ("target_audience", .str "Beginners"),
        ("syllabus", .arr [stageA, stageB])]

/-- A schema-valid one-stage syllabus. -/
def oneStageSyl : JValue :=
  .obj [("syllabus_name", .str "Solo"), ("target_audience", .str "Beginners"),
        ("syllabus", .arr [stageA])]

/-- A schema-invalid syllabus: `target_audience` and `syllabus` are
missing. -/
def invalidSyl : JValue :=
  .obj [("syllabus_name", .str "Broken")]

/-- A decoded `explain` turn. -/
def turnExplain : Turn :=
  { stage_id := some "stage_1", response_type := some "explain",
    is_pass := some false, response_content := some "Here is an explanation." }

/-- A decoded passing `judge` turn. -/
def turnJudgePass : Turn :=
  { stage_id := some "stage_1", response_type := some "judge",
    is_pass := some true, response_content := some "Correct! Well done." }

/-- A decoded failing `judge` turn. -/
def turnJudgeFail : Turn :=
  { stage_id := some "stage_1", response_type := some "judge",
    is_pass := some false, response_content := some "Not quite, try again." }

/-- A decoded `teach` turn for the second stage. -/
def turnTeach : Turn :=
  { stage_id := some "stage_2", response_type := some "teach",
    is_pass := some false, response_content := some "Welcome to stage two." }

/-- A concrete stand-in for `json.loads` on turn responses, mapping a few
fixed wire strings to decoded turns and everything else to a parse
failure. -/
def turnParseTable : String → Option Turn := fun s =>
  if s = "E" then some turnExplain
  else if s = "J" then some turnJudgePass
  else if s = "F" then some turnJudgeFail
  else if s = "T" then some turnTeach
  else none

/-- A concrete stand-in for `json.loads` on syllabus documents, mapping a
few fixed wire strings to JSON values and everything else to a parse
failure. -/
def sylParseTable : String → Option JValue := fun s =>
  if s = "V" then some validSyl
  else if s = "B" then some invalidSyl
  else none

/-- A tutor state with the two-stage syllabus loaded, on the first stage. -/
def exampleState : TutorState :=
  { chat_session := none, syllabus_info := some validSyl,
    current_stage_index := 0, is_teaching_started := true }

/-- A tutor state with the one-stage syllabus loaded. -/
def soloState : TutorState :=
  { chat_session := none, syllabus_info := some oneStageSyl,
    current_stage_index := 0, is_teaching_started := true }

/-- A tutor state with no syllabus loaded. -/
def emptyState : TutorState :=
  { chat_session := none, syllabus_info := none,
    current_stage_index := 0, is_teaching_started := false }

/-- A small JSON object used to exercise the extraction chain. -/
def demoObj : JValue := .obj [("k", .num 1)]

/-- A concrete stand-in for `json.loads` that recognizes exactly the
serialization of `demoObj`. -/
def demoParse : String → Option JValue := fun s =>
  if s = "\x7b\"k\": 1\x7d" then some demoObj else none

/-! ### Helper lemmas -/

/-- A string is its character list repackaged. -/
theorem strMkData (s : String) : String.mk s.data = s := rfl

/-- String concatenation concatenates the character lists. -/
theorem strDataAppend (a b : String) : (a ++ b).data = a.data ++ b.data := by
  cases a; cases b; rfl

/-- `findChar` skips a prefix that does not contain the character. -/
theorem findChar_append_of_not_mem {c : Char} {l : List Char} (h : c ∉ l)
    (r : List Char) :
    findChar c (l ++ r) = (findChar c r).map (· + l.length) := by
  induction l with
  | nil => cases hr : findChar c r <;> simp [hr]
  | cons a t ih =>
    have ha : a ≠ c := fun hac => h (hac ▸ List.mem_cons_self a t)
    have ht : c ∉ t := fun hct => h (List.mem_cons_of_mem a hct)
    cases hr : findChar c r <;>
      simp [findChar, ha, ih ht, hr, Nat.add_assoc, Nat.add_comm 1]

/-- `findChar` finds the character at the head. -/
theorem findChar_cons_self (c : Char) (t : List Char) :
    findChar c (c :: t) = some 0 := by
  simp [findChar]

/-- Whenever `_get_current_stage_info` resolves a stage, the returned index
is within bounds, the stage is the indexed element, the syllabus is truthy,
and any state with the same syllabus resolves to the same stages list with
its own clamped index. -/
theorem gcsiShape {st : TutorState} {stages : List JValue} {stage : JValue}
    {idx : Nat} (h : getCurrentStageInfo st = (some (stages, stage), idx)) :
    truthyOpt st.syllabus_info = true
    ∧ idx < stages.length
    ∧ stage = stages.getD idx .null
    ∧ ∀ st₂ : TutorState, st₂.syllabus_info = st.syllabus_info →
        getCurrentStageInfo st₂ =
          (some (stages, stages.getD
              (if stages.length ≤ st₂.current_stage_index then stages.length - 1
               else st₂.current_stage_index) .null),
           if stages.length ≤ st₂.current_stage_index then stages.length - 1
           else st₂.current_stage_index) := by
  rcases hsy : st.syllabus_info with _ | info
  · rw [getCurrentStageInfo, hsy] at h
    simp at h
  · rw [getCurrentStageInfo, hsy] at h
    dsimp only at h
    by_cases ht : info.truthy
    · rw [if_neg (by simp [ht])] at h
      by_cases hin : pyIn "syllabus" info
      · rw [if_neg (by simp [hin])] at h
        rcases hlk : info.lookup "syllabus" with _ | v
        · rw [hlk] at h; simp at h
        · rw [hlk] at h
          cases v with
          | arr stages₀ =>
            dsimp only at h
            by_cases he : stages₀.isEmpty
            · simp [he] at h
            · rw [if_neg he] at h
              have hlen : 0 < stages₀.length := by
                cases stages₀ with
                | nil => simp at he
                | cons a t => simp
              have h₁ := h
              simp only [Prod.mk.injEq, Option.some.injEq] at h₁
              obtain ⟨⟨hst, hstage⟩, hidx⟩ := h₁
              subst hst
              rw [hidx] at hstage
              refine ⟨by simp [truthyOpt, hsy, ht], ?_, hstage.symm, ?_⟩
              · rw [← hidx]
                split <;> omega
              · intro st₂ hsy₂
                rw [getCurrentStageInfo, hsy₂]
                dsimp only
                rw [if_neg (by simp [ht]), if_neg (by simp [hin]), hlk]
                dsimp only
                rw [if_neg he]
          | null => simp at h
          | bool b => simp at h
          | num n => simp at h
          | str s => simp at h
          | obj fields => simp at h
      · rw [if_pos (by simp [hin])] at h
        simp at h
    · rw [if_pos (by simp [ht])] at h
      simp at h

/-! ### Claim theorems -/

/-- C1: the spec claims that a turn whose model response text is not
parseable as JSON appends exactly one apology message and does not raise.
The code instead calls `json.loads(response_text)` with no handler
(tutor_bot_service.py line 90): with the two-stage syllabus loaded and a
model response `"not json"` that no parser accepts, `process_message`
raises `json.JSONDecodeError` (the `.error` outcome) and appends nothing. -/
theorem c1_unparseable_response_raises :
    processMessage turnParseTable "user" "my answer" [] [some "not json"]
        exampleState
      = .error "JSONDecodeError: not json" := by
  rfl

/-- C2: the spec claims the edit operation is atomic — a schema-invalid
edited syllabus must leave the stored syllabus unchanged.  The code assigns
`self.current_syllabus = updated_syllabus` (syllabus_generator.py line 122)
before `_validate_syllabus` runs (line 129): with the valid two-stage
syllabus stored and the model returning the schema-invalid `invalidSyl`,
the generator reports a validation error yet the stored syllabus has been
replaced by the invalid document. -/
theorem c2_edit_replaces_syllabus_despite_validation_failure :
    (genProcessMessage sylParseTable "please remove stage two" [some "B"]
        { document_uploaded := true, document_url := some "doc.pdf",
          current_syllabus := some validSyl }).1
      = "Error validating updated syllabus: Missing required field: target_audience\n\nReceived syllabus:\n```json\n\x7b\"syllabus_name\": \"Broken\"\x7d\n```"
    ∧ (genProcessMessage sylParseTable "please remove stage two" [some "B"]
        { document_uploaded := true, document_url := some "doc.pdf",
          current_syllabus := some validSyl }).2.1.current_syllabus
      = some invalidSyl
    ∧ validate_syllabus invalidSyl = some "Missing required field: target_audience"
    ∧ validate_syllabus validSyl = none
    ∧ invalidSyl ≠ validSyl := by
  refine ⟨by rfl, by rfl, by rfl, by rfl, by simp [invalidSyl, validSyl]⟩

/-- C6: for every chat-session handle, message and remaining oracle, a
model-call failure (a `none` oracle head, or an exhausted oracle) makes
`_send_message_to_model` return the fixed JSON string rather than raise,
and that string is the serialization of a single synthetic turn with
`response_type = "explain"`, `is_pass = false` and an apology content. -/
theorem c6_model_failure_yields_synthetic_explain_turn :
    (∀ (cs : Option Unit) (msg : String) (rest : ModelOracle),
        sendMessageToModel cs (none :: rest) msg = (errorResponseText, some (), rest))
    ∧ (∀ (cs : Option Unit) (msg : String),
        sendMessageToModel cs [] msg = (errorResponseText, some (), []))
    ∧ errorResponseText
        = turnJson "" "explain" false
            "I encountered an error processing your request. Please try again."
    ∧ errorTurn.response_type = some "explain"
    ∧ errorTurn.is_pass = some false
    ∧ errorResponseText
        = turnJson (errorTurn.stage_id.getD "") (errorTurn.response_type.getD "")
            (errorTurn.is_pass.getD true) (errorTurn.response_content.getD "") :=
  ⟨fun _ _ _ => rfl, fun _ _ => rfl, rfl, rfl, rfl, rfl⟩

/-- C7: when no syllabus is loaded, every turn through `process_message`
appends exactly one fixed guidance message, leaves the state (in particular
`current_stage_index`) unchanged and consumes no model call. -/
theorem c7_no_syllabus_guidance_only (parse : String → Option Turn)
    (input_type input_content : String) (hist : ChatHistory)
    (oracle : ModelOracle) (st : TutorState)
    (h : st.syllabus_info = none) :
    processMessage parse input_type input_content hist oracle st
      = .ok (hist ++
              [(if input_type == "user" then input_content else "", noSyllabusMsg)],
             none, st, oracle) := by
  rw [processMessage, h]
  rfl

/-- Witness for C7 at a concrete empty state and user turn. -/
theorem c7_no_syllabus_guidance_only_witness :
    processMessage turnParseTable "user" "hello" [] [some "E"] emptyState
      = .ok ([("hello", noSyllabusMsg)], none, emptyState, [some "E"]) :=
  c7_no_syllabus_guidance_only turnParseTable "user" "hello" [] [some "E"]
    emptyState rfl

/-- C9 counterexample: the spec claims `set_syllabus` drops the
conversation continuity handle (the chat session becomes `None`); on a
state holding a live chat session, the handle survives `set_syllabus`
unchanged. -/
theorem c9_set_syllabus_keeps_chat_session :
    ¬ ((set_syllabus
          { chat_session := some (), syllabus_info := some validSyl,
            current_stage_index := 1, is_teaching_started := true }
          oneStageSyl).chat_session = none) := by
  simp [set_syllabus]

/-- C9 amended: `set_syllabus` resets `current_stage_index` to 0 and the
started flag to false and stores the new syllabus, but leaves the chat
session handle untouched (the source comment reads "No longer initializing
chat session or sending system prompt here"; a fresh handle is only
allocated when teaching starts or on the next model call). -/
theorem c9_set_syllabus_resets_index_and_flag_keeps_session
    (st : TutorState) (s : JValue) :
    set_syllabus st s
      = { chat_session := st.chat_session, syllabus_info := some s,
          current_stage_index := 0, is_teaching_started := false } :=
  rfl

/-- C5 counterexample: the spec claims generation runs model call,
extraction and schema validation and that an output failing validation
yields an error result.  The generation branch of
`SyllabusGenerator.process_message` has its `_validate_syllabus` call
commented out (syllabus_generator.py lines 101-104): a model output that
parses but is schema-invalid (`invalidSyl`, missing `target_audience` and
`syllabus`) is returned as a generated syllabus and stored. -/
theorem c5_generation_skips_schema_validation :
    genProcessMessage sylParseTable "generate a syllabus from this document"
        [some "B"]
        { document_uploaded := true, document_url := some "doc.pdf",
          current_syllabus := none }
      = (generatedMsg "\x7b\"syllabus_name\": \"Broken\"\x7d",
         { document_uploaded := true, document_url := some "doc.pdf",
           current_syllabus := some invalidSyl }, [])
    ∧ validate_syllabus invalidSyl
        = some "Missing required field: target_audience" := by
  exact ⟨by rfl, by rfl⟩

/-- C5 amended: generation runs the model call and the extraction step and
both must succeed — an extraction failure yields an `{"error": ...}` value
which `process_message` surfaces as an `"Error: ..."` reply — but schema
validation is not run on generated syllabi (the call is commented out), so
any non-error result is returned and stored as the syllabus regardless of
its schema. -/
theorem c5_generation_gated_by_extraction_not_validation
    (parse : String → Option JValue) (message : String)
    (oracle : ModelOracle) (st : GenState) (result : JValue)
    (o₁ : ModelOracle)
    (h₁ : st.document_uploaded = true)
    (h₂ : matchesGenerateRegex message = true)
    (hgen : generate_syllabus_from_document parse (st.document_url.getD "") oracle
              = (result, o₁)) :
    (pyIn "error" result = true →
      genProcessMessage parse message oracle st
        = ("Error: " ++ errText result,
           { st with current_syllabus := some result }, o₁))
    ∧ (pyIn "error" result = false →
      genProcessMessage parse message oracle st
        = (generatedMsg result.jdump,
           { st with current_syllabus := some result }, o₁))
    ∧ (∀ (pfx t : String) (rest : ModelOracle) (msg : String),
        extractJson parse t = .error msg →
        geminiFallbackCall parse pfx (some t :: rest)
          = (.obj [("error", .str msg)], rest)) := by
  refine ⟨?_, ?_, ?_⟩
  · intro herr
    rw [genProcessMessage, h₁]
    simp only [Bool.not_true]
    rw [if_neg (by simp), if_pos h₂, hgen]
    dsimp only
    rw [if_pos herr]
  · intro herr
    rw [genProcessMessage, h₁]
    simp only [Bool.not_true]
    rw [if_neg (by simp), if_pos h₂, hgen]
    dsimp only
    rw [if_neg (by simp [herr])]
  · intro pfx t rest msg hext
    rw [geminiFallbackCall, hext]

/-- Witness for C5 at the concrete generation request that returns the
schema-invalid document. -/
theorem c5_generation_gated_witness :
    pyIn "error" invalidSyl = false
    ∧ genProcessMessage sylParseTable "generate a syllabus from this document"
        [some "B"]
        { document_uploaded := true, document_url := some "doc.pdf",
          current_syllabus := none }
      = (generatedMsg invalidSyl.jdump,
         { document_uploaded := true, document_url := some "doc.pdf",
           current_syllabus := some invalidSyl }, []) :=
  ⟨by rfl,
   (c5_generation_gated_by_extraction_not_validation sylParseTable
      "generate a syllabus from this document" [some "B"]
      { document_uploaded := true, document_url := some "doc.pdf",
        current_syllabus := none }
      invalidSyl [] (by rfl) (by rfl) (by rfl)).2.1 (by rfl)⟩

/-- C3 counterexample: the spec claims `current_stage_index` stays within
`[0, N-1]` after every operation and that an advance from the last stage is
idempotent.  The admin `next stage` branch of `process_message` increments
without a bound check (tutor_bot_service.py line 111): on the one-stage
syllabus (`N = 1`, valid range `{0}`) the index is `1` after the call. -/
theorem c3_admin_next_stage_leaves_range :
    processMessage turnParseTable "admin" "next stage" [] [some "E"] soloState
      = .ok ([], some true,
             { chat_session := some (), syllabus_info := some oneStageSyl,
               current_stage_index := 1, is_teaching_started := true },
             [])
    ∧ getCurrentStageInfo soloState = (some ([stageA], stageA), 0)
    ∧ ¬ (1 < ([stageA] : List JValue).length) := by
  refine ⟨by rfl, by rfl, by simp⟩

/-- C3 amended: whenever `_get_current_stage_info` resolves a stage, the
index it returns (and writes back) is within `[0, N-1]` — an out-of-range
index is clamped to `N-1` at the next stage-info resolution — and a user
turn (in particular a judge verdict) never moves `current_stage_index` out
of `[0, N-1]`; from the last stage a user turn leaves the index at `N-1`
(judge-pass advancement is idempotent there).  Only the admin `next stage`
command can leave the index at `N` until the next resolution clamps it. -/
theorem c3_user_turns_keep_index_in_range :
    (∀ (st : TutorState) (p : List JValue × JValue) (i : Nat),
        getCurrentStageInfo st = (some p, i) → i < p.1.length)
    ∧ (∀ (parse : String → Option Turn) (content : String) (hist : ChatHistory)
        (oracle : ModelOracle) (st : TutorState) (stages : List JValue)
        (stage : JValue) (idx₁ : Nat) (h₂ : ChatHistory) (su : Option Bool)
        (st₂ : TutorState) (o₂ : ModelOracle),
        getCurrentStageInfo st = (some (stages, stage), idx₁) →
        processMessage parse "user" content hist oracle st
          = .ok (h₂, su, st₂, o₂) →
        st₂.current_stage_index < stages.length
        ∧ (idx₁ = stages.length - 1 → st₂.current_stage_index = idx₁)) := by
  constructor
  · intro st p i h
    obtain ⟨stages, stage⟩ := p
    exact (gcsiShape h).2.1
  · intro parse content hist oracle st stages stage idx₁ h₂ su st₂ o₂ hg hok
    obtain ⟨htr, hlt, hstage, hsame⟩ := gcsiShape hg
    rw [processMessage, htr] at hok
    simp only [Bool.not_true] at hok
    rw [if_neg (by simp), hg] at hok
    dsimp only at hok
    by_cases hstg : stage.truthy
    · rw [if_neg (by simp [hstg])] at hok
      split at hok
      · simp at hok
      next j heq =>
        split at hok
        next hc =>
          rw [show (("user" : String) == "admin") = false from rfl] at hc
          simp only [Bool.false_and, Bool.false_or, Bool.and_eq_true,
            decide_eq_true_eq] at hc
          obtain ⟨-, hlt2⟩ := hc
          split at hok
          next hbound =>
            rw [hsame
              { chat_session :=
                  (sendMessageToModel st.chat_session oracle
                    (createPrompt "user" content (some stage))).2.1,
                syllabus_info := st.syllabus_info,
                current_stage_index := idx₁ + 1,
                is_teaching_started := st.is_teaching_started } rfl] at hok
            split at hok <;>
            · simp only [Except.ok.injEq, Prod.mk.injEq] at hok
              obtain ⟨-, -, hst, -⟩ := hok
              rw [← hst]
              dsimp only
              constructor
              · split <;> omega
              · intro hlast; omega
          next hbound => omega
        next hc =>
          split at hok
          next hc₂ =>
            rw [show (("user" : String) == "admin") = false from rfl] at hc₂
            simp at hc₂
          next hc₂ =>
            simp only [Except.ok.injEq, Prod.mk.injEq] at hok
            obtain ⟨-, -, hst, -⟩ := hok
            rw [← hst]
            exact ⟨hlt, fun _ => rfl⟩
    · rw [if_pos (by simp [hstg])] at hok
      simp only [Except.ok.injEq, Prod.mk.injEq] at hok
      obtain ⟨-, -, hst, -⟩ := hok
      rw [← hst]
      exact ⟨hlt, fun _ => rfl⟩

/-- Witness for C3 at a concrete failed judge turn on the two-stage
syllabus. -/
theorem c3_user_turns_keep_index_in_range_witness :
    ({ chat_session := some (), syllabus_info := some validSyl,
       current_stage_index := 0, is_teaching_started := true } :
        TutorState).current_stage_index
      < ([stageA, stageB] : List JValue).length
    ∧ (0 = ([stageA, stageB] : List JValue).length - 1 →
        ({ chat_session := some (), syllabus_info := some validSyl,
           current_stage_index := 0, is_teaching_started := true } :
            TutorState).current_stage_index = 0) :=
  c3_user_turns_keep_index_in_range.2 turnParseTable "q" [] [some "F"]
    exampleState [stageA, stageB] stageA 0 [("q", "Not quite, try again.")]
    (some false)
    { chat_session := some (), syllabus_info := some validSyl,
      current_stage_index := 0, is_teaching_started := true } []
    (by rfl) (by rfl)

/-- C4 counterexample: the spec claims a passing judge verdict below the
last stage appends one synthetic teach turn for the new stage.  When the
synthesized teach response fails to parse, the advance still happens but
nothing is appended (tutor_bot_service.py lines 120-125 log and drop it):
here the judge turn passes, the index advances to 1, yet the transcript
gains only the judge entry and no teach entry. -/
theorem c4_teach_turn_lost_on_unparseable_teach_response :
    processMessage turnParseTable "user" "my answer" [] [some "J", some "bad"]
        exampleState
      = .ok ([("my answer", "Correct! Well done.")], some true,
             { chat_session := some (), syllabus_info := some validSyl,
               current_stage_index := 1, is_teaching_started := true },
             [])
    ∧ ([("my answer", "Correct! Well done.")] : ChatHistory).length = 1 := by
  exact ⟨by rfl, by rfl⟩

/-- C4 amended: with a resolvable truthy stage and a parseable judge
response on a user turn, a passing verdict strictly below the last stage
advances the index by exactly one and appends one synthetic teach turn when
the synthesized teach response parses (when it does not parse, the advance
still happens but no teach turn is appended), and a failing verdict never
triggers a transition. -/
theorem c4_judge_verdict_drives_single_advance
    (parse : String → Option Turn) (content : String) (hist : ChatHistory)
    (t₁ : String) (o₂ : ModelOracle) (st : TutorState) (stages : List JValue)
    (stage : JValue) (idx₁ : Nat) (j : Turn)
    (hg : getCurrentStageInfo st = (some (stages, stage), idx₁))
    (hstg : stage.truthy = true)
    (hp : parse t₁ = some j)
    (hjudge : j.response_type = some "judge") :
    (∀ (t₂ : String) (o₃ : ModelOracle) (tj : Turn),
      j.is_pass = some true → idx₁ < stages.length - 1 →
      o₂ = some t₂ :: o₃ → parse t₂ = some tj →
      processMessage parse "user" content hist (some t₁ :: o₂) st
        = .ok (hist ++ [(content, j.response_content.getD ""),
                        ("", tj.response_content.getD "")],
               some true,
               { chat_session := some (), syllabus_info := st.syllabus_info,
                 current_stage_index := idx₁ + 1,
                 is_teaching_started := st.is_teaching_started },
               o₃))
    ∧ (∀ (t₂ : String) (o₃ : ModelOracle),
      j.is_pass = some true → idx₁ < stages.length - 1 →
      o₂ = some t₂ :: o₃ → parse t₂ = none →
      processMessage parse "user" content hist (some t₁ :: o₂) st
        = .ok (hist ++ [(content, j.response_content.getD "")],
               some true,
               { chat_session := some (), syllabus_info := st.syllabus_info,
                 current_stage_index := idx₁ + 1,
                 is_teaching_started := st.is_teaching_started },
               o₃))
    ∧ (j.is_pass = some false →
      processMessage parse "user" content hist (some t₁ :: o₂) st
        = .ok (hist ++ [(content, j.response_content.getD "")],
               some false,
               { chat_session := some (), syllabus_info := st.syllabus_info,
                 current_stage_index := idx₁,
                 is_teaching_started := st.is_teaching_started },
               o₂)) := by
  obtain ⟨htr, hlt, hstage, hsame⟩ := gcsiShape hg
  refine ⟨?_, ?_, ?_⟩
  · intro t₂ o₃ tj hpass hblw ho hp₂
    subst ho
    rw [processMessage, htr]
    simp only [Bool.not_true]
    rw [if_neg (by simp), hg]
    dsimp only
    rw [if_neg (by simp [hstg])]
    dsimp only [sendMessageToModel]
    rw [hp]
    dsimp only
    rw [if_pos (by simp [hjudge, hpass, hblw]),
      if_pos (show idx₁ + 1 < stages.length by omega)]
    rw [hsame
      { chat_session := some (), syllabus_info := st.syllabus_info,
        current_stage_index := idx₁ + 1,
        is_teaching_started := st.is_teaching_started } rfl]
    dsimp only [sendMessageToModel]
    rw [hp₂, if_neg (show ¬ stages.length ≤ idx₁ + 1 by omega)]
    simp [List.append_assoc]
  · intro t₂ o₃ hpass hblw ho hp₂
    subst ho
    rw [processMessage, htr]
    simp only [Bool.not_true]
    rw [if_neg (by simp), hg]
    dsimp only
    rw [if_neg (by simp [hstg])]
    dsimp only [sendMessageToModel]
    rw [hp]
    dsimp only
    rw [if_pos (by simp [hjudge, hpass, hblw]),
      if_pos (show idx₁ + 1 < stages.length by omega)]
    rw [hsame
      { chat_session := some (), syllabus_info := st.syllabus_info,
        current_stage_index := idx₁ + 1,
        is_teaching_started := st.is_teaching_started } rfl]
    dsimp only [sendMessageToModel]
    rw [hp₂, if_neg (show ¬ stages.length ≤ idx₁ + 1 by omega)]
    rfl
  · intro hpass
    rw [processMessage, htr]
    simp only [Bool.not_true]
    rw [if_neg (by simp), hg]
    dsimp only
    rw [if_neg (by simp [hstg])]
    dsimp only [sendMessageToModel]
    rw [hp]
    dsimp only
    rw [if_neg (by simp [hpass]), if_neg (by simp)]
    rfl

/-- Witness for C4 at a concrete passing judge turn on the two-stage
syllabus with a parseable teach response. -/
theorem c4_judge_verdict_drives_single_advance_witness :
    processMessage turnParseTable "user" "my answer" [] [some "J", some "T"]
        exampleState
      = .ok ([] ++ [("my answer", turnJudgePass.response_content.getD ""),
                    ("", turnTeach.response_content.getD "")],
             some true,
             { chat_session := some (),
               syllabus_info := exampleState.syllabus_info,
               current_stage_index := 0 + 1,
               is_teaching_started := exampleState.is_teaching_started },
             []) :=
  (c4_judge_verdict_drives_single_advance turnParseTable "my answer" []
    "J" [some "T"] exampleState [stageA, stageB] stageA 0 turnJudgePass
    (by rfl) (by rfl) (by rfl) (by rfl)).1 "T" [] turnTeach
    (by rfl) (by decide) (by rfl) (by rfl)

/-- C8: the extraction of a structured object from raw model text tries,
in order and stopping at first success, (1) parsing the whole text, (2)
parsing the substring from the first opening brace to the last closing
brace, (3) returning an error — so for every parse function, every object
`x` and every serialization `s` of `x` (a brace-delimited string the parser
maps to `x`), extraction of `s` returns `x`, and extraction of `s` wrapped
in leading/trailing prose free of interfering braces returns the same `x`
(whether or not the whole wrapped text itself happens to parse). -/
theorem c8_extraction_layered_strategies (parse : String → Option JValue) (x : JValue)
    (s pre post : String) (mid : List Char)
    (hs : s.data = '\x7b' :: (mid ++ ['\x7d']))
    (hparse : parse s = some x)
    (hpre : '\x7b' ∉ pre.data) (hpost : '\x7d' ∉ post.data)
    (hwrap : parse (pre ++ s ++ post) = none ∨
             parse (pre ++ s ++ post) = some x) :
    extractJson parse s = .ok x
    ∧ extractJson parse (pre ++ s ++ post) = .ok x := by
  have hTd : (pre ++ s ++ post).data = pre.data ++ (s.data ++ post.data) := by
    rw [strDataAppend, strDataAppend, List.append_assoc]
  have hsL : s.data.length = mid.length + 2 := by
    rw [hs]; simp
  have hfind : findChar '\x7b' (pre ++ s ++ post).data
      = some pre.data.length := by
    rw [hTd, findChar_append_of_not_mem hpre]
    rw [hs, List.cons_append, findChar_cons_self]
    simp
  have hrev : (pre ++ s ++ post).data.reverse
      = post.data.reverse ++ ('\x7d' :: (mid.reverse ++ ('\x7b' :: pre.data.reverse))) := by
    rw [hTd]
    simp [hs, List.reverse_append]
  have hrfind : rfindChar '\x7d' (pre ++ s ++ post).data
      = some (pre.data.length + mid.length + 1) := by
    rw [rfindChar, hrev, findChar_append_of_not_mem (by simpa using hpost),
      findChar_cons_self]
    have hlen : (pre ++ s ++ post).data.length
        = pre.data.length + (mid.length + 2) + post.data.length := by
      rw [hTd]; simp [hsL]; omega
    simp [hTd, hsL]
    omega
  have hslice : ((pre ++ s ++ post).data.drop pre.data.length).take
      (pre.data.length + mid.length + 1 + 1 - pre.data.length) = s.data := by
    rw [hTd, List.drop_left]
    have : pre.data.length + mid.length + 1 + 1 - pre.data.length
        = s.data.length := by omega
    rw [this, List.take_left]
  refine ⟨?_, ?_⟩
  · rw [extractJson, hparse]
  · rcases hwrap with hw | hw
    · rw [extractJson, hw, hfind]
      dsimp only
      rw [hrfind]
      dsimp only [Option.map, Option.getD]
      rw [hslice, strMkData, hparse]
    · rw [extractJson, hw]

/-- Witness for C8 at a concrete object, serialization and prose
wrapping. -/
theorem c8_extraction_layered_strategies_witness :
    extractJson demoParse "\x7b\"k\": 1\x7d" = .ok demoObj
    ∧ extractJson demoParse
        ("Sure! Here you go: " ++ "\x7b\"k\": 1\x7d" ++ " Hope that helps.")
      = .ok demoObj :=
  c8_extraction_layered_strategies demoParse demoObj "\x7b\"k\": 1\x7d"
    "Sure! Here you go: " " Hope that helps." "\"k\": 1".data
    (by rfl) (by rfl) (by decide) (by decide) (Or.inl (by rfl))

set_option maxHeartbeats 1000000 in
/-- C10: the transcript entries, the `stage_updated` value, the raised
exception (if any) and the whole resulting state apart from the flag itself
are independent of `is_teaching_started`: running `process_message` on a
state whose flag is overwritten by any `b` yields exactly the result of the
original run with the flag of the result state overwritten by `b` — so
admin `next stage` / `previous stage` commands and judge-pass advancement
operate even when the session was never started or has already ended. -/
theorem c10_flag_independent (parse : String → Option Turn) (ty content : String)
    (hist : ChatHistory) (oracle : ModelOracle) (st : TutorState) (b : Bool) :
    processMessage parse ty content hist oracle
        { st with is_teaching_started := b }
      = (processMessage parse ty content hist oracle st).map
          (fun r => (r.1, r.2.1, { r.2.2.1 with is_teaching_started := b },
                     r.2.2.2)) := by
  obtain ⟨cs, si, idx, f⟩ := st
  dsimp only [processMessage]
  rw [show getCurrentStageInfo ⟨cs, si, idx, f⟩
        = getCurrentStageInfo ⟨cs, si, idx, b⟩ from rfl]
  split
  · rfl
  · split
    · rfl
    next stages stage heq =>
      rw [show getCurrentStageInfo
            { chat_session := (sendMessageToModel cs oracle
                (createPrompt ty content (some stage))).2.1,
              syllabus_info := si,
              current_stage_index := (getCurrentStageInfo
                { chat_session := cs, syllabus_info := si,
                  current_stage_index := idx, is_teaching_started := b }).2 + 1,
              is_teaching_started := f }
          = getCurrentStageInfo
            { chat_session := (sendMessageToModel cs oracle
                (createPrompt ty content (some stage))).2.1,
              syllabus_info := si,
              current_stage_index := (getCurrentStageInfo
                { chat_session := cs, syllabus_info := si,
                  current_stage_index := idx, is_teaching_started := b }).2 + 1,
              is_teaching_started := b } from rfl,
        show getCurrentStageInfo
            { chat_session := (sendMessageToModel cs oracle
                (createPrompt ty content (some stage))).2.1,
              syllabus_info := si,
              current_stage_index := (getCurrentStageInfo
                { chat_session := cs, syllabus_info := si,
                  current_stage_index := idx, is_teaching_started := b }).2 - 1,
              is_teaching_started := f }
          = getCurrentStageInfo
            { chat_session := (sendMessageToModel cs oracle
                (createPrompt ty content (some stage))).2.1,
              syllabus_info := si,
              current_stage_index := (getCurrentStageInfo
                { chat_session := cs, syllabus_info := si,
                  current_stage_index := idx, is_teaching_started := b }).2 - 1,
              is_teaching_started := b } from rfl]
      repeat' split
      all_goals try rfl
      all_goals simp_all
      all_goals rfl

end AiTutor
